import Mathlib

/-!
Verification development for the Ubuntu-Planner notification scheduling and
active-session lifecycle engine.

Instants are modelled as rationals (seconds since an arbitrary epoch); the
Python code's `datetime` subtraction and float division by 60 become exact
rational arithmetic.  The frontend store works in milliseconds (JavaScript
`Date` values), which we also model as rationals.

The data store is a list of rows; SQLAlchemy's `.first()` becomes
`List.find?` and mutation of the ORM object found by id becomes replacement
of the first row with that id.
-/

namespace UbuntuPlanner

/-- A row of the `sessions` table (see `readme-database.md` and
`app/models/session.py` as used by `SessionService`). `end_time = none`
means the session is active. -/
structure Session where
  id : Nat
  project_id : Option Nat
  planning_id : Option Nat
  start_time : ℚ
  end_time : Option ℚ
  planned_duration : ℤ
  notification_disabled : Bool
  notes : Option String
  tasks_done : Option String
  satisfaction_score : Option ℤ
  tag_ids : List Nat
  deriving DecidableEq

/-- A row of the `planning` table, as read by the notification worker. -/
structure Planning where
  id : Nat
  project_id : Nat
  scheduled_start : ℚ
  scheduled_end : ℚ
  priority : String
  description : Option String
  tag_ids : List Nat
  deriving DecidableEq

/-- The fields of a `projects` row that the core reads
(`Project.notification_interval`, `Project.name`). -/
structure Project where
  id : Nat
  name : String
  notification_interval : Option ℤ
  deriving DecidableEq

/-- A row of the `settings` table; `value_json` is the integer parsed by
`int(settings.value_json)` in `_check_session_notifications`. -/
structure Setting where
  key_name : String
  value_json : ℤ
  deriving DecidableEq

/-- The slice of the data store visible to the notification worker. -/
structure Env where
  sessions : List Session
  plannings : List Planning
  projects : List Project
  settings : List Setting
  deriving DecidableEq

/-- Truncation toward zero, as Python `int()` on a float and SQL
`TIMESTAMPDIFF` both do. -/
def pyInt (q : ℚ) : ℤ :=
  if q < 0 then -(Int.floor (-q)) else Int.floor q

/-- `TIMESTAMPDIFF(MINUTE, start_time, end_time)` generated column of the
`sessions` table: the difference in whole minutes (truncated), `NULL`
while the session is active. -/
def actual_duration (s : Session) : Option ℤ :=
  s.end_time.map (fun e => pyInt ((e - s.start_time) / 60))

/-! ## SessionService (`backend/app/services/session_service.py`) -/

/-- Errors raised by `SessionService` (`raise ValueError(...)` in the code;
the API layer maps them to HTTP 400).  The three messages used are
"Another session is already active", "Session not found" and
"Session already stopped". -/
inductive SessionError
  | conflict
  | notFound
  | alreadyStopped
  deriving DecidableEq

/-- Body of `POST /api/sessions/` (`SessionStart` pydantic model). -/
structure StartInput where
  project_id : Option Nat
  planning_id : Option Nat
  planned_duration : ℤ
  tag_ids : List Nat
  deriving DecidableEq

/-- Body of `POST /api/sessions/{id}/stop` (`SessionReview`,
`dict(exclude_unset=True)`): `some v` means the field was provided with
value `v`. -/
structure Review where
  satisfaction_score : Option ℤ
  tasks_done : Option String
  notes : Option String
  tag_ids : Option (List Nat)
  deriving DecidableEq

/-- `SessionService.get_active_session`: first row with `end_time IS NULL`. -/
def get_active_session (store : List Session) : Option Session :=
  store.find? (fun s => s.end_time.isNone)

/-- `SessionService.get_by_id`. -/
def get_by_id (store : List Session) (sid : Nat) : Option Session :=
  store.find? (fun s => s.id == sid)

/-- Replace the first row with the given id by `f` of it (mutation of the
ORM object returned by `get_by_id`, then `commit`). -/
def updateFirst (store : List Session) (sid : Nat) (f : Session → Session) :
    List Session :=
  match store with
  | [] => []
  | s :: rest =>
    if s.id = sid then f s :: rest else s :: updateFirst rest sid f

/-- `SessionService.start_session`: raises if an active session exists,
otherwise inserts a new row with `start_time = now`, the input fields, and
column defaults for everything else.  `newId` stands for the
`AUTO_INCREMENT` id the database assigns. -/
def start_session (store : List Session) (input : StartInput) (now : ℚ)
    (newId : Nat) : Except SessionError (List Session) :=
  match get_active_session store with
  | some _ => .error .conflict
  | none =>
    .ok (store ++ [{
      id := newId
      project_id := input.project_id
      planning_id := input.planning_id
      start_time := now
      end_time := none
      planned_duration := input.planned_duration
      notification_disabled := false
      notes := none
      tasks_done := none
      satisfaction_score := none
      tag_ids := input.tag_ids }])

/-- The review merge in `stop_session`: `setattr(session, key, value)` for
each provided key (`tag_ids` goes through the tag query and replaces
`session.tags`). -/
def applyReview (r : Review) (s : Session) : Session :=
  let s := match r.satisfaction_score with
    | some v => { s with satisfaction_score := some v }
    | none => s
  let s := match r.tasks_done with
    | some v => { s with tasks_done := some v }
    | none => s
  let s := match r.notes with
    | some v => { s with notes := some v }
    | none => s
  match r.tag_ids with
    | some v => { s with tag_ids := v }
    | none => s

/-- The mutation `stop_session` applies to the found row: set
`end_time = now`, then merge the review fields if a review was provided. -/
def stopUpdate (now : ℚ) (review : Option Review) (s : Session) : Session :=
  let s := { s with end_time := some now }
  match review with
  | some r => applyReview r s
  | none => s

/-- `SessionService.stop_session`. -/
def stop_session (store : List Session) (sid : Nat)
    (review : Option Review) (now : ℚ) : Except SessionError (List Session) :=
  match get_by_id store sid with
  | none => .error .notFound
  | some s =>
    if s.end_time.isSome then .error .alreadyStopped
    else .ok (updateFirst store sid (stopUpdate now review))

/-- `SessionService.add_note`: appends `"[HH:MM] {note}"` to `notes`,
newline-separated.  `hm` is `datetime.now().strftime("%H:%M")`. -/
def add_note (store : List Session) (sid : Nat) (note : String)
    (hm : String) : Except SessionError (List Session) :=
  match get_by_id store sid with
  | none => .error .notFound
  | some _ =>
    .ok (updateFirst store sid (fun s =>
      let newNote := "[" ++ hm ++ "] " ++ note
      match s.notes with
      | some old => { s with notes := some (old ++ "\n" ++ newNote) }
      | none => { s with notes := some newNote }))

/-- `SessionService.add_time`: `session.planned_duration += minutes`.
The code checks only that the session exists — there is no check that it
is active and no check on the sign of `minutes`. -/
def add_time (store : List Session) (sid : Nat) (minutes : ℤ) :
    Except SessionError (List Session) :=
  match get_by_id store sid with
  | none => .error .notFound
  | some _ =>
    .ok (updateFirst store sid (fun s =>
      { s with planned_duration := s.planned_duration + minutes }))

/-- `SessionService.toggle_notifications`. -/
def toggle_notifications (store : List Session) (sid : Nat) :
    Except SessionError (List Session) :=
  match get_by_id store sid with
  | none => .error .notFound
  | some _ =>
    .ok (updateFirst store sid (fun s =>
      { s with notification_disabled := !s.notification_disabled }))

/-! ## Operation sequences over the session store -/

/-- One invocation of a mutating `SessionService` operation together with
the request-time data the service reads from the clock or the database
(`now`, the formatted timestamp, the assigned id). -/
inductive SessionOp
  | start (input : StartInput) (now : ℚ) (newId : Nat)
  | stop (sid : Nat) (review : Option Review) (now : ℚ)
  | addNote (sid : Nat) (note : String) (hm : String)
  | addTime (sid : Nat) (minutes : ℤ)
  | toggle (sid : Nat)

/-- Run one operation; a raised error rolls nothing forward, the store is
unchanged (the service raises before any mutation). -/
def applyOp (store : List Session) (op : SessionOp) : List Session :=
  match op with
  | .start input now newId =>
    match start_session store input now newId with
    | .ok st => st
    | .error _ => store
  | .stop sid review now =>
    match stop_session store sid review now with
    | .ok st => st
    | .error _ => store
  | .addNote sid note hm =>
    match add_note store sid note hm with
    | .ok st => st
    | .error _ => store
  | .addTime sid minutes =>
    match add_time store sid minutes with
    | .ok st => st
    | .error _ => store
  | .toggle sid =>
    match toggle_notifications store sid with
    | .ok st => st
    | .error _ => store

/-- Run a sequence of operations left to right. -/
def runOps (store : List Session) (ops : List SessionOp) : List Session :=
  ops.foldl applyOp store

/-- Number of active sessions (rows with `end_time IS NULL`) in the store. -/
def countActive (store : List Session) : Nat :=
  store.countP (fun s => s.end_time.isNone)

/-! ## Frontend session store getters (`frontend/src/stores/sessions.js`) -/

/-- `elapsedMinutes` getter: `Math.floor((now - start) / 1000 / 60)`;
`now` and `start` are JavaScript `Date` values in milliseconds. -/
def elapsedMinutesFE (now start : ℚ) : ℤ :=
  Int.floor ((now - start) / 1000 / 60)

/-- `remainingMinutes` getter: `Math.max(0, planned_duration - elapsed)`. -/
def remainingMinutesFE (now start : ℚ) (planned : ℤ) : ℤ :=
  max 0 (planned - elapsedMinutesFE now start)

/-- `isOvertime` getter: `elapsedMinutes > planned_duration`. -/
def isOvertimeFE (now start : ℚ) (planned : ℤ) : Bool :=
  planned < elapsedMinutesFE now start

/-- `overtimeMinutes` getter: `Math.max(0, elapsed - planned_duration)`. -/
def overtimeMinutesFE (now start : ℚ) (planned : ℤ) : ℤ :=
  max 0 (elapsedMinutesFE now start - planned)

/-! ## Notification worker
(`backend/app/tasks/notification_worker.py`, assembled from
`roadmap/2/notifications.md` for the planning check with dedup cache and
the session-notifications document for the session check) -/

/-- `(now - start).total_seconds() / 60` — elapsed minutes as the worker
computes them (a float; exact here). -/
def workerElapsedMinutes (now start : ℚ) : ℚ :=
  (now - start) / 60

/-- `f"{item_type}_{item_id}"` — key of the `_notification_cache` dict. -/
def dedupKey (item_type : String) (item_id : Nat) : String :=
  item_type ++ "_" ++ toString item_id

/-- The module-level `_notification_cache` dict: key to `lastSentAt`
(seconds).  Insertion conses, so `List.lookup` sees the latest value. -/
def Cache := List (String × ℚ)

/-- `_was_notification_sent_recently`: `False` if the key is absent,
otherwise `(now - last_sent).total_seconds() < 60`. -/
def wasSentRecently (cache : Cache) (now : ℚ) (key : String) : Bool :=
  match List.lookup key cache with
  | none => false
  | some last => decide (now - last < 60)

/-- `_mark_notification_sent`: `self._notification_cache[key] = now`. -/
def markSent (cache : Cache) (now : ℚ) (key : String) : Cache :=
  (key, now) :: cache

/-- Look a project up by id. -/
def lookupProject (env : Env) (pid : Nat) : Option Project :=
  env.projects.find? (fun p => p.id == pid)

/-- Interval used by `_check_planning_notifications`: `interval = 10`,
overridden by `plan.project.notification_interval` when the relation and
the column are truthy.  No settings fallback exists in this function. -/
def planningInterval (env : Env) (plan : Planning) : ℤ :=
  match lookupProject env plan.project_id with
  | some pr =>
    match pr.notification_interval with
    | some v => if v = 0 then 10 else v
    | none => 10
  | none => 10

/-- Interval used by `_check_session_notifications`: `interval = 10`;
project override when truthy, otherwise the
`notification_interval_default` setting when present. -/
def sessionInterval (env : Env) (s : Session) : ℤ :=
  let fallback :=
    match env.settings.find? (fun st => st.key_name == "notification_interval_default") with
    | some st => st.value_json
    | none => 10
  match s.project_id.bind (lookupProject env) with
  | some pr =>
    match pr.notification_interval with
    | some v => if v = 0 then fallback else v
    | none => fallback
  | none => fallback

/-- A rendered notification handed to
`notification_service.send_notification`. -/
structure Dispatch where
  title : String
  message : String
  urgency : String
  deriving DecidableEq

/-- `plan.project.name` (empty when the relation is missing; the schema's
foreign key makes that unreachable). -/
def planningProjectName (env : Env) (plan : Planning) : String :=
  ((lookupProject env plan.project_id).map Project.name).getD ""

/-- `session.project.name if session.project else "Session"`. -/
def sessionProjectName (env : Env) (s : Session) : String :=
  match s.project_id.bind (lookupProject env) with
  | some pr => pr.name
  | none => "Session"

/-- `if plan.description:` — append the description when truthy
(non-`None`, non-empty). -/
def appendDescription (msg : String) (d : Option String) : String :=
  match d with
  | some txt => if txt = "" then msg else msg ++ "\n" ++ txt
  | none => msg

/-- `_send_planning_notification`: title/message/urgency built from the
entry; initial framing under one elapsed minute, reminder framing after. -/
def planningDispatch (env : Env) (plan : Planning) (elapsed : ℚ) : Dispatch :=
  let urgency := if plan.priority = "critical" then "critical" else "normal"
  if elapsed < 1 then
    { title := "Scheduled Work"
      message := appendDescription ("Time to start: " ++ planningProjectName env plan)
        plan.description
      urgency := urgency }
  else
    { title := "Planning Reminder"
      message := appendDescription
        ("Reminder: " ++ planningProjectName env plan ++
          "\nScheduled " ++ toString (pyInt elapsed) ++ " minutes ago")
        plan.description
      urgency := urgency }

/-- `_send_session_notification`: initial "time's up" framing under one
overtime minute, "still working" framing after. -/
def sessionDispatch (env : Env) (s : Session) (overtime : ℚ) : Dispatch :=
  let name := sessionProjectName env s
  if overtime < 1 then
    { title := "Session Complete: " ++ name
      message := "Time is up! You've worked for " ++ toString s.planned_duration ++
        " minutes.\nConsider taking a break or starting something else."
      urgency := "normal" }
  else
    { title := "Still Working: " ++ name
      message := "You're " ++ toString (pyInt overtime) ++
        " minutes over planned time.\nPlanned: " ++ toString s.planned_duration ++
        " min, Elapsed: " ++ toString (pyInt (overtime + (s.planned_duration : ℚ))) ++ " min"
      urgency := "normal" }

/-- The per-entry decision of `_check_planning_notifications`: skip when a
session was started from this entry; skip when any still-active session
started at or after `scheduled_start`; otherwise initial notification
under one elapsed minute, else interval-boundary check; finally the dedup
check.  `some d` means `d` is dispatched and the cache marked. -/
def planningDecision (env : Env) (now : ℚ) (cache : Cache)
    (plan : Planning) : Option Dispatch :=
  if env.sessions.any (fun s => s.planning_id == some plan.id) then none
  else if env.sessions.any (fun s =>
      decide (plan.scheduled_start ≤ s.start_time) && s.end_time.isNone) then none
  else
    let elapsed := workerElapsedMinutes now plan.scheduled_start
    let should : Bool :=
      if elapsed < 1 then true
      else pyInt elapsed % planningInterval env plan == 0
    if should then
      if wasSentRecently cache now (dedupKey "planning" plan.id) then none
      else some (planningDispatch env plan elapsed)
    else none

/-- Delivery failure of the notification service
(`_send_to_service` raising). -/
inductive DispatchError
  | failed
  deriving DecidableEq

/-- `NotificationService.send_notification`: every exception from the
delivery path is caught and turned into `False` — failures never
propagate to the worker. -/
def sendNotification (port : Dispatch → Except DispatchError Bool)
    (d : Dispatch) : Bool :=
  match port d with
  | .ok b => b
  | .error _ => false

/-- Evaluate one planning entry: dispatch and mark the cache when the
decision fires; the send outcome is recorded but never branched on. -/
def checkPlanningEntry (port : Dispatch → Except DispatchError Bool)
    (env : Env) (now : ℚ) (cache : Cache) (plan : Planning) :
    List (Dispatch × Bool) × Cache :=
  match planningDecision env now cache plan with
  | none => ([], cache)
  | some d =>
    ([(d, sendNotification port d)], markSent cache now (dedupKey "planning" plan.id))

/-- The query window of `_check_planning_notifications`:
`scheduled_start` within `[now - 5 minutes, now]`. -/
def planningWindow (env : Env) (now : ℚ) : List Planning :=
  env.plannings.filter (fun p =>
    decide (now - 300 ≤ p.scheduled_start) && decide (p.scheduled_start ≤ now))

/-- The `for plan in planning_list:` loop body, recursing over the fetched
entries in order and threading the dedup cache. -/
def checkPlanningList (port : Dispatch → Except DispatchError Bool)
    (env : Env) (now : ℚ) :
    List Planning → Cache → List (Dispatch × Bool) × Cache
  | [], cache => ([], cache)
  | plan :: rest, cache =>
    let r := checkPlanningEntry port env now cache plan
    let rest' := checkPlanningList port env now rest r.2
    (r.1 ++ rest'.1, rest'.2)

/-- `_check_planning_notifications`: evaluate every entry in the window in
fetch order, threading the dedup cache. -/
def checkPlanningNotifications (port : Dispatch → Except DispatchError Bool)
    (env : Env) (now : ℚ) (cache : Cache) :
    List (Dispatch × Bool) × Cache :=
  checkPlanningList port env now (planningWindow env now) cache

/-- The decision of `_check_session_notifications`: no active session or
notifications disabled or not yet past the planned duration means no
dispatch; then initial notification under one overtime minute, else
interval-boundary check; finally the dedup check. -/
def sessionDecision (env : Env) (now : ℚ) (cache : Cache) :
    Option (Nat × Dispatch) :=
  match get_active_session env.sessions with
  | none => none
  | some s =>
    if s.notification_disabled then none
    else
      let elapsed := workerElapsedMinutes now s.start_time
      if elapsed < (s.planned_duration : ℚ) then none
      else
        let overtime := elapsed - (s.planned_duration : ℚ)
        let should : Bool :=
          if overtime < 1 then true
          else pyInt overtime % sessionInterval env s == 0
        if should then
          if wasSentRecently cache now (dedupKey "session" s.id) then none
          else some (s.id, sessionDispatch env s overtime)
        else none

/-- `_check_session_notifications`: dispatch and mark when the decision
fires. -/
def checkSessionNotifications (port : Dispatch → Except DispatchError Bool)
    (env : Env) (now : ℚ) (cache : Cache) :
    List (Dispatch × Bool) × Cache :=
  match sessionDecision env now cache with
  | none => ([], cache)
  | some (sid, d) =>
    ([(d, sendNotification port d)], markSent cache now (dedupKey "session" sid))

/-- `NotificationWorker.check_notifications`: planning check, then session
check, one tick. -/
def check_notifications (port : Dispatch → Except DispatchError Bool)
    (env : Env) (now : ℚ) (cache : Cache) :
    List (Dispatch × Bool) × Cache :=
  let p := checkPlanningNotifications port env now cache
  let s := checkSessionNotifications port env now p.2
  (p.1 ++ s.1, s.2)

/-- The polling loop of `NotificationWorker.start`: each element of
`ticks` is the store state and the clock at one wakeup; every tick's
outcome is collected and the loop always proceeds to the next tick. -/
def runWorker (port : Dispatch → Except DispatchError Bool) :
    List (Env × ℚ) → Cache → List (List (Dispatch × Bool)) × Cache
  | [], cache => ([], cache)
  | (env, now) :: rest, cache =>
    let r := check_notifications port env now cache
    let rec' := runWorker port rest r.2
    (r.1 :: rec'.1, rec'.2)

/-! ## Helper lemmas -/

theorem countP_updateFirst_le (p : Session → Bool) (store : List Session)
    (sid : Nat) (f : Session → Session)
    (h : ∀ s, p (f s) = true → p s = true) :
    (updateFirst store sid f).countP p ≤ store.countP p := by
  induction store with
  | nil => simp [updateFirst]
  | cons s rest ih =>
    by_cases hid : s.id = sid
    · simp only [updateFirst, if_pos hid, List.countP_cons]
      have : (if p (f s) then 1 else 0) ≤ (if p s then 1 else 0) := by
        by_cases hp : p (f s) = true
        · rw [if_pos hp, if_pos (h s hp)]
        · rw [if_neg hp]
          exact Nat.zero_le _
      omega
    · simp only [updateFirst, if_neg hid, List.countP_cons]
      omega

theorem countP_updateFirst_eq (p : Session → Bool) (store : List Session)
    (sid : Nat) (f : Session → Session)
    (h : ∀ s, p (f s) = p s) :
    (updateFirst store sid f).countP p = store.countP p := by
  induction store with
  | nil => rfl
  | cons s rest ih =>
    by_cases hid : s.id = sid
    · simp only [updateFirst, if_pos hid, List.countP_cons, h]
    · simp only [updateFirst, if_neg hid, List.countP_cons, ih]

theorem countActive_eq_zero (store : List Session)
    (h : get_active_session store = none) : countActive store = 0 := by
  rw [countActive, List.countP_eq_zero]
  intro a ha
  exact List.find?_eq_none.mp h a ha

theorem stopUpdate_end_time (now : ℚ) (review : Option Review) (s : Session) :
    (stopUpdate now review s).end_time = some now := by
  rcases review with _ | r
  · rfl
  · rcases r with ⟨a, b, c, d⟩
    simp only [stopUpdate, applyReview]
    cases a <;> cases b <;> cases c <;> cases d <;> rfl

theorem applyOp_preserves (store : List Session) (op : SessionOp)
    (h : countActive store ≤ 1) : countActive (applyOp store op) ≤ 1 := by
  cases op with
  | start input now newId =>
    simp only [applyOp, start_session]
    cases hact : get_active_session store with
    | none =>
      have h0 : countActive store = 0 := countActive_eq_zero store hact
      simp only [countActive, List.countP_append] at *
      simp [h0, List.countP_cons]
    | some a => simpa using h
  | stop sid review now =>
    simp only [applyOp, stop_session]
    cases hfind : get_by_id store sid with
    | none => simpa using h
    | some s =>
      by_cases hstop : s.end_time.isSome
      · simp only [if_pos hstop]
        simpa using h
      · simp only [if_neg hstop]
        refine le_trans (countP_updateFirst_le _ store sid _ ?_) h
        intro t ht
        rw [stopUpdate_end_time] at ht
        simp at ht
  | addNote sid note hm =>
    simp only [applyOp, add_note]
    cases hfind : get_by_id store sid with
    | none => simpa using h
    | some s =>
      refine le_trans (le_of_eq (countP_updateFirst_eq _ store sid _ ?_)) h
      intro t
      cases t.notes <;> rfl
  | addTime sid minutes =>
    simp only [applyOp, add_time]
    cases hfind : get_by_id store sid with
    | none => simpa using h
    | some s =>
      refine le_trans (le_of_eq (countP_updateFirst_eq _ store sid _ ?_)) h
      intro t
      rfl
  | toggle sid =>
    simp only [applyOp, toggle_notifications]
    cases hfind : get_by_id store sid with
    | none => simpa using h
    | some s =>
      refine le_trans (le_of_eq (countP_updateFirst_eq _ store sid _ ?_)) h
      intro t
      rfl

theorem runOps_preserves (store : List Session) (ops : List SessionOp)
    (h : countActive store ≤ 1) : countActive (runOps store ops) ≤ 1 := by
  induction ops generalizing store with
  | nil => exact h
  | cons op rest ih => exact ih _ (applyOp_preserves store op h)

/-! ## Claim theorems -/

/-- C1: for every sequence of Active Session Manager operations (start,
stop, addNote, addTime, toggleNotifications) applied to a store initially
containing no active session, at most one Session in the store has
`end_time = none` at every observed point (i.e. after every prefix of the
sequence). -/
theorem single_active_invariant (init : List Session) (ops : List SessionOp)
    (h : countActive init = 0) (n : Nat) :
    countActive (runOps init (ops.take n)) ≤ 1 :=
  runOps_preserves init (ops.take n) (by omega)

/-- Witness for C1: a concrete run — start, a conflicting second start, a
stop, another start — observed at every prefix. -/
theorem single_active_invariant_witness :
    countActive ([] : List Session) = 0 ∧
    (∀ n, countActive (runOps []
      (([.start ⟨none, none, 30, []⟩ 0 1,
        .start ⟨some 2, none, 60, []⟩ 300 2,
        .stop 1 none 1800,
        .start ⟨none, none, 45, []⟩ 2000 3] : List SessionOp).take n)) ≤ 1) :=
  ⟨rfl, fun n => single_active_invariant [] _ rfl n⟩

/-- C2: when the store contains an active session, `start_session` fails
with the conflict error ("Another session is already active") and the
store — in particular the existing active session — is unchanged. -/
theorem start_session_conflict (store : List Session) (input : StartInput)
    (now : ℚ) (newId : Nat) (a : Session)
    (h : get_active_session store = some a) :
    start_session store input now newId = .error .conflict ∧
    applyOp store (.start input now newId) = store := by
  constructor
  · simp [start_session, h]
  · simp [applyOp, start_session, h]

/-- Witness for C2: starting a second session at `09:05` while one is
running fails with the conflict error and leaves the store as it was. -/
theorem start_session_conflict_witness :
    start_session
      [{ id := 1, project_id := some 1, planning_id := none, start_time := 32400,
         end_time := none, planned_duration := 30, notification_disabled := false,
         notes := none, tasks_done := none, satisfaction_score := none,
         tag_ids := [] }] ⟨none, none, 60, []⟩ 32700 2 = .error .conflict ∧
    applyOp
      [{ id := 1, project_id := some 1, planning_id := none, start_time := 32400,
         end_time := none, planned_duration := 30, notification_disabled := false,
         notes := none, tasks_done := none, satisfaction_score := none,
         tag_ids := [] }] (.start ⟨none, none, 60, []⟩ 32700 2) =
      [{ id := 1, project_id := some 1, planning_id := none, start_time := 32400,
         end_time := none, planned_duration := 30, notification_disabled := false,
         notes := none, tasks_done := none, satisfaction_score := none,
         tag_ids := [] }] :=
  start_session_conflict _ _ 32700 2
    { id := 1, project_id := some 1, planning_id := none, start_time := 32400,
      end_time := none, planned_duration := 30, notification_disabled := false,
      notes := none, tasks_done := none, satisfaction_score := none,
      tag_ids := [] } rfl

theorem elapsedFE_eval (T c : ℚ) (m : ℤ) (h : c / 60000 = (m : ℚ)) :
    elapsedMinutesFE (T + c) T = m := by
  unfold elapsedMinutesFE
  have h2 : (T + c - T) / 1000 / 60 = c / 60000 := by ring
  rw [h2, h, Int.floor_intCast]

/-- C3: the derived session facts use floor-minute semantics.  For the
frontend getters (times in milliseconds): with `planned_duration = 60` and
`start_time = T`, at `T+59m` `isOvertime` is false, at `T+60m`
`overtimeMinutes = 0`, at `T+61m` `isOvertime` is true and
`overtimeMinutes = 1`, and `elapsedMinutes = ⌊(now - start) / 60s⌋`
exactly.  The worker's checks (times in seconds) agree at the same
boundaries: not yet due at `T+59m`, due with overtime `0` at `T+60m`, due
with truncated overtime `1` at `T+61m`. -/
theorem boundary_floor_semantics :
    (∀ T : ℚ, isOvertimeFE (T + 59 * 60000) T 60 = false) ∧
    (∀ T : ℚ, overtimeMinutesFE (T + 60 * 60000) T 60 = 0) ∧
    (∀ T : ℚ, isOvertimeFE (T + 61 * 60000) T 60 = true) ∧
    (∀ T : ℚ, overtimeMinutesFE (T + 61 * 60000) T 60 = 1) ∧
    (∀ now T : ℚ, elapsedMinutesFE now T = Int.floor ((now - T) / 60000)) ∧
    (∀ S : ℚ, workerElapsedMinutes (S + 59 * 60) S < 60) ∧
    (∀ S : ℚ, ¬ workerElapsedMinutes (S + 60 * 60) S < 60 ∧
      pyInt (workerElapsedMinutes (S + 60 * 60) S - 60) = 0) ∧
    (∀ S : ℚ, ¬ workerElapsedMinutes (S + 61 * 60) S < 60 ∧
      (1 : ℚ) ≤ workerElapsedMinutes (S + 61 * 60) S - 60 ∧
      pyInt (workerElapsedMinutes (S + 61 * 60) S - 60) = 1) := by
  refine ⟨?_, ?_, ?_, ?_, ?_, ?_, ?_, ?_⟩
  · intro T
    have h := elapsedFE_eval T (59 * 60000) 59 (by norm_num)
    unfold isOvertimeFE
    rw [h]
    decide
  · intro T
    have h := elapsedFE_eval T (60 * 60000) 60 (by norm_num)
    unfold overtimeMinutesFE
    rw [h]
    decide
  · intro T
    have h := elapsedFE_eval T (61 * 60000) 61 (by norm_num)
    unfold isOvertimeFE
    rw [h]
    decide
  · intro T
    have h := elapsedFE_eval T (61 * 60000) 61 (by norm_num)
    unfold overtimeMinutesFE
    rw [h]
    decide
  · intro now T
    unfold elapsedMinutesFE
    rw [div_div]
    norm_num
  · intro S
    unfold workerElapsedMinutes
    have h : (S + 59 * 60 - S) / 60 = (59 : ℚ) := by ring
    rw [h]; norm_num
  · intro S
    unfold workerElapsedMinutes pyInt
    have h : (S + 60 * 60 - S) / 60 = (60 : ℚ) := by ring
    rw [h]
    norm_num
  · intro S
    unfold workerElapsedMinutes pyInt
    have h : (S + 61 * 60 - S) / 60 = (61 : ℚ) := by ring
    rw [h]
    norm_num

/-- C4: `stop_session` with no review object sets `end_time = now` on the
referenced active session, leaves `satisfaction_score`, `tasks_done`,
`notes` and `tag_ids` exactly as they were (and touches no other row),
and afterwards `actual_duration` is the fixed value
`(end_time - start_time)` in whole minutes. -/
theorem stop_session_quick (store : List Session) (sid : Nat) (now : ℚ)
    (s : Session) (hfind : get_by_id store sid = some s)
    (hact : s.end_time = none) :
    stop_session store sid none now =
      .ok (updateFirst store sid (fun t => { t with end_time := some now })) ∧
    (stopUpdate now none s).satisfaction_score = s.satisfaction_score ∧
    (stopUpdate now none s).tasks_done = s.tasks_done ∧
    (stopUpdate now none s).notes = s.notes ∧
    (stopUpdate now none s).tag_ids = s.tag_ids ∧
    (stopUpdate now none s).end_time = some now ∧
    actual_duration (stopUpdate now none s) =
      some (pyInt ((now - s.start_time) / 60)) := by
  refine ⟨?_, rfl, rfl, rfl, rfl, rfl, rfl⟩
  simp [stop_session, hfind, hact]
  rfl

/-- Witness for C4: a quick stop of a concrete active session with review
data already present. -/
theorem stop_session_quick_witness :
    stop_session
      [{ id := 1, project_id := some 1, planning_id := none, start_time := 0,
         end_time := none, planned_duration := 30, notification_disabled := false,
         notes := some "[10:00] n", tasks_done := some "t",
         satisfaction_score := some 80, tag_ids := [3] }] 1 none 1800 =
      .ok (updateFirst
        [{ id := 1, project_id := some 1, planning_id := none, start_time := 0,
           end_time := none, planned_duration := 30, notification_disabled := false,
           notes := some "[10:00] n", tasks_done := some "t",
           satisfaction_score := some 80, tag_ids := [3] }] 1
        (fun t => { t with end_time := some 1800 })) ∧
    (stopUpdate 1800 none
      { id := 1, project_id := some 1, planning_id := none, start_time := 0,
        end_time := none, planned_duration := 30, notification_disabled := false,
        notes := some "[10:00] n", tasks_done := some "t",
        satisfaction_score := some 80, tag_ids := [3] }).satisfaction_score =
      some 80 ∧
    (stopUpdate 1800 none
      { id := 1, project_id := some 1, planning_id := none, start_time := 0,
        end_time := none, planned_duration := 30, notification_disabled := false,
        notes := some "[10:00] n", tasks_done := some "t",
        satisfaction_score := some 80, tag_ids := [3] }).tasks_done = some "t" ∧
    actual_duration (stopUpdate 1800 none
      { id := 1, project_id := some 1, planning_id := none, start_time := 0,
        end_time := none, planned_duration := 30, notification_disabled := false,
        notes := some "[10:00] n", tasks_done := some "t",
        satisfaction_score := some 80, tag_ids := [3] }) = some 30 := by
  have h := stop_session_quick
    [{ id := 1, project_id := some 1, planning_id := none, start_time := 0,
       end_time := none, planned_duration := 30, notification_disabled := false,
       notes := some "[10:00] n", tasks_done := some "t",
       satisfaction_score := some 80, tag_ids := [3] }] 1 1800
    { id := 1, project_id := some 1, planning_id := none, start_time := 0,
      end_time := none, planned_duration := 30, notification_disabled := false,
      notes := some "[10:00] n", tasks_done := some "t",
      satisfaction_score := some 80, tag_ids := [3] } rfl rfl
  refine ⟨h.1, h.2.1, h.2.2.1, ?_⟩
  rw [h.2.2.2.2.2.2]
  norm_num [pyInt]

/-- A stopped session used to exhibit the missing validations of
`add_time`. -/
def sessionC5 : Session :=
  { id := 1, project_id := none, planning_id := none, start_time := 0,
    end_time := some 1800, planned_duration := 30,
    notification_disabled := false, notes := none, tasks_done := none,
    satisfaction_score := none, tag_ids := [] }

/-- Counterexample for C5: `add_time` on a session that is not active and
with negative minutes succeeds and decreases `planned_duration` — the code
has neither the is-active check nor the positive-minutes check the claim
asserts. -/
theorem add_time_no_validation_cex :
    (get_by_id [sessionC5] 1).map (fun s => s.end_time.isNone) = some false ∧
    (-5 : ℤ) < 0 ∧
    add_time [sessionC5] 1 (-5) =
      .ok [{ sessionC5 with planned_duration := 25 }] := by
  refine ⟨rfl, by decide, ?_⟩
  rfl

/-- C5 amended: `add_time` fails only (with the not-found error) when the
referenced session does not exist; for any existing session — active or
stopped — and any integer minutes it adds `minutes` to
`planned_duration` and leaves every other field and every other row
unchanged. -/
theorem add_time_amended (store : List Session) (sid : Nat) (minutes : ℤ) :
    (∀ s, get_by_id store sid = some s →
      add_time store sid minutes =
        .ok (updateFirst store sid (fun t =>
          { t with planned_duration := t.planned_duration + minutes }))) ∧
    (get_by_id store sid = none → add_time store sid minutes = .error .notFound) := by
  constructor
  · intro s h
    simp [add_time, h]
  · intro h
    simp [add_time, h]

/-- Witness for C5's amended claim: both branches at concrete inputs. -/
theorem add_time_amended_witness :
    add_time [sessionC5] 1 15 =
      .ok (updateFirst [sessionC5] 1 (fun t =>
        { t with planned_duration := t.planned_duration + 15 })) ∧
    add_time [sessionC5] 2 15 = .error .notFound :=
  ⟨(add_time_amended [sessionC5] 1 15).1 sessionC5 rfl,
   (add_time_amended [sessionC5] 2 15).2 rfl⟩

/-- Project fixture for the C6 counterexample. -/
def projC6 : Project := ⟨1, "P", none⟩

/-- Planning entry fixture for C6: scheduled at instant `0`. -/
def planC6 : Planning :=
  { id := 1, project_id := 1, scheduled_start := 0, scheduled_end := 3600,
    priority := "medium", description := none, tag_ids := [] }

/-- Session fixture for C6: started after the entry's scheduled start but
already ended. -/
def sessionC6 : Session :=
  { id := 7, project_id := none, planning_id := none, start_time := 100,
    end_time := some 200, planned_duration := 30,
    notification_disabled := false, notes := none, tasks_done := none,
    satisfaction_score := none, tag_ids := [] }

/-- Store fixture for C6. -/
def envC6 : Env :=
  { sessions := [sessionC6], plannings := [planC6], projects := [projC6],
    settings := [] }

/-- Counterexample for C6: a session with `start_time ≥ scheduled_start`
exists but has already ended, and the planning entry is *not* skipped — a
notification is still produced.  The code's skip query filters
`end_time IS NULL`, so only still-active sessions suppress the reminder,
not "any Session ... regardless of whether that session is still active
or already ended" as the claim states. -/
theorem planning_skip_ended_cex :
    (envC6.sessions.any fun s =>
      decide (planC6.scheduled_start ≤ s.start_time)) = true ∧
    (envC6.sessions.all fun s => s.end_time.isSome) = true ∧
    (planningDecision envC6 30 ([] : Cache) planC6).isSome = true := by
  refine ⟨rfl, rfl, ?_⟩
  norm_num [planningDecision, envC6, planC6, sessionC6, workerElapsedMinutes,
    wasSentRecently, dedupKey]

/-- C6 amended: during planning-start evaluation an entry is skipped
whenever some *still-active* session (`end_time = none`) has
`start_time ≥ scheduled_start`; ended sessions do not cause this skip. -/
theorem planning_skip_active (env : Env) (now : ℚ) (cache : Cache)
    (plan : Planning)
    (h : env.sessions.any (fun s =>
      decide (plan.scheduled_start ≤ s.start_time) && s.end_time.isNone) = true) :
    planningDecision env now cache plan = none := by
  by_cases h1 : env.sessions.any (fun s => s.planning_id == some plan.id) = true
  · simp [planningDecision, h1]
  · simp only [Bool.not_eq_true] at h1
    simp [planningDecision, h1, h]

/-- Still-active session fixture for the C6 witness. -/
def sessionC6w : Session :=
  { id := 8, project_id := none, planning_id := none, start_time := 100,
    end_time := none, planned_duration := 30,
    notification_disabled := false, notes := none, tasks_done := none,
    satisfaction_score := none, tag_ids := [] }

/-- Store fixture for the C6 witness. -/
def envC6w : Env :=
  { sessions := [sessionC6w], plannings := [planC6], projects := [projC6],
    settings := [] }

/-- Witness for C6's amended claim: an active session started after the
entry's scheduled start suppresses the notification. -/
theorem planning_skip_active_witness :
    planningDecision envC6w 30 ([] : Cache) planC6 = none :=
  planning_skip_active envC6w 30 ([] : Cache) planC6 rfl

/-- Project fixture for the C7 counterexample: no interval override. -/
def projC7 : Project := ⟨1, "P", none⟩

/-- Planning entry fixture for C7. -/
def planC7 : Planning :=
  { id := 2, project_id := 1, scheduled_start := 0, scheduled_end := 3600,
    priority := "medium", description := none, tag_ids := [] }

/-- Store fixture for C7: the global default interval setting is `5`. -/
def envC7 : Env :=
  { sessions := [], plannings := [planC7], projects := [projC7],
    settings := [⟨"notification_interval_default", 5⟩] }

/-- Counterexample for C7: entry with no project override, global default
setting `5`, five elapsed minutes.  Under the claim's interval resolution
(`floor(elapsed) mod 5 = 0`) a reminder would be eligible, but the
planning check never reads Settings — it uses the constant `10` — and
dispatches nothing (the cache is empty, so dedup is not the cause). -/
theorem planning_interval_settings_cex :
    (lookupProject envC7 planC7.project_id).map Project.notification_interval =
      some none ∧
    (envC7.settings.find? fun st =>
      st.key_name == "notification_interval_default").map Setting.value_json =
      some 5 ∧
    (1 : ℚ) ≤ workerElapsedMinutes 300 planC7.scheduled_start ∧
    pyInt (workerElapsedMinutes 300 planC7.scheduled_start) % 5 = 0 ∧
    planningDecision envC7 300 ([] : Cache) planC7 = none := by
  refine ⟨rfl, rfl, ?_, ?_, ?_⟩
  · norm_num [workerElapsedMinutes, planC7]
  · norm_num [workerElapsedMinutes, planC7, pyInt]
  · norm_num [planningDecision, envC7, planC7, projC7, workerElapsedMinutes,
      wasSentRecently, dedupKey, planningInterval, lookupProject, pyInt]

/-- C7 amended: for an entry at least one elapsed minute past its
scheduled start that is not skipped and not deduplicated, a reminder is
dispatched exactly when `floor(elapsed) mod interval = 0`, where
`interval` is the project's `notification_interval` override when set and
nonzero, and otherwise the constant `10` — the planning check never
consults the global default interval Setting (second conjunct: the
resolved interval is invariant under any change to the settings table). -/
theorem planning_interval_resolution (env : Env) (now : ℚ) (cache : Cache)
    (plan : Planning)
    (h1 : env.sessions.any (fun s => s.planning_id == some plan.id) = false)
    (h2 : env.sessions.any (fun s =>
      decide (plan.scheduled_start ≤ s.start_time) && s.end_time.isNone) = false)
    (h3 : wasSentRecently cache now (dedupKey "planning" plan.id) = false)
    (h4 : (1 : ℚ) ≤ workerElapsedMinutes now plan.scheduled_start) :
    ((planningDecision env now cache plan).isSome = true ↔
      pyInt (workerElapsedMinutes now plan.scheduled_start) %
        planningInterval env plan = 0) ∧
    (∀ settings', planningInterval { env with settings := settings' } plan =
      planningInterval env plan) := by
  constructor
  · have hlt : ¬ workerElapsedMinutes now plan.scheduled_start < 1 := not_lt.mpr h4
    simp [planningDecision, h1, h2, h3, hlt]
  · intro settings'
    rfl

/-- Project fixture for the C7 witness: interval override `5`. -/
def projC7w : Project := ⟨1, "P", some 5⟩

/-- Planning entry fixture for the C7 witness. -/
def planC7w : Planning :=
  { id := 3, project_id := 1, scheduled_start := 0, scheduled_end := 3600,
    priority := "medium", description := none, tag_ids := [] }

/-- Store fixture for the C7 witness. -/
def envC7w : Env :=
  { sessions := [], plannings := [planC7w], projects := [projC7w],
    settings := [] }

/-- Witness for C7's amended claim: with a project override of `5` and
five elapsed minutes, the reminder fires; and the resolved interval does
not change when the settings table does. -/
theorem planning_interval_resolution_witness :
    (planningDecision envC7w 300 ([] : Cache) planC7w).isSome = true ∧
    planningInterval { envC7w with
      settings := [⟨"notification_interval_default", 99⟩] } planC7w =
      planningInterval envC7w planC7w :=
  ⟨(planning_interval_resolution envC7w 300 ([] : Cache) planC7w rfl rfl rfl
      (by norm_num [workerElapsedMinutes, planC7w])).1.mpr
      (by norm_num [pyInt, workerElapsedMinutes, planC7w, planningInterval,
        lookupProject, envC7w, projC7w]),
   (planning_interval_resolution envC7w 300 ([] : Cache) planC7w rfl rfl rfl
      (by norm_num [workerElapsedMinutes, planC7w])).2
      [⟨"notification_interval_default", 99⟩]⟩

/-- C8: while the active session has `notification_disabled = true`, a
tick dispatches nothing for it — whatever the clock, cache or dispatch
port, i.e. however far into overtime it is and across arbitrarily many
ticks; any session dispatch implies the active session is enabled *and*
past its planned duration (so after toggling back, the next tick
dispatches only if then due); and `toggle_notifications` flips exactly
the `notification_disabled` flag. -/
theorem session_notifications_disabled_toggle (env : Env) (s : Session)
    (hact : get_active_session env.sessions = some s) :
    (s.notification_disabled = true →
      ∀ (port : Dispatch → Except DispatchError Bool) (now : ℚ) (cache : Cache),
        checkSessionNotifications port env now cache = ([], cache)) ∧
    (∀ now cache, (sessionDecision env now cache).isSome = true →
      s.notification_disabled = false ∧
      (s.planned_duration : ℚ) ≤ workerElapsedMinutes now s.start_time) ∧
    (∀ store sid t, get_by_id store sid = some t →
      toggle_notifications store sid =
        .ok (updateFirst store sid (fun u =>
          { u with notification_disabled := !u.notification_disabled }))) := by
  refine ⟨?_, ?_, ?_⟩
  · intro hdis port now cache
    simp [checkSessionNotifications, sessionDecision, hact, hdis]
  · intro now cache hsome
    by_cases hdis : s.notification_disabled
    · simp [sessionDecision, hact, hdis] at hsome
    · refine ⟨by simpa using hdis, ?_⟩
      by_cases hdue : workerElapsedMinutes now s.start_time < (s.planned_duration : ℚ)
      · simp [sessionDecision, hact, hdis, hdue] at hsome
      · exact not_lt.mp hdue
  · intro store sid t h
    simp [toggle_notifications, h]

/-- Active-but-muted session fixture for the C8 witness: far into
overtime at the witness tick. -/
def sessionC8 : Session :=
  { id := 4, project_id := none, planning_id := none, start_time := 0,
    end_time := none, planned_duration := 30,
    notification_disabled := true, notes := none, tasks_done := none,
    satisfaction_score := none, tag_ids := [] }

/-- Store fixture for the C8 witness. -/
def envC8 : Env :=
  { sessions := [sessionC8], plannings := [], projects := [], settings := [] }

/-- Witness for C8: a muted session deep in overtime produces no dispatch,
and toggling flips the flag. -/
theorem session_notifications_disabled_toggle_witness :
    checkSessionNotifications (fun _ => .ok true) envC8 10000 ([] : Cache) =
      ([], ([] : Cache)) ∧
    toggle_notifications envC8.sessions 4 =
      .ok (updateFirst envC8.sessions 4 (fun u =>
        { u with notification_disabled := !u.notification_disabled })) :=
  ⟨(session_notifications_disabled_toggle envC8 sessionC8 rfl).1 rfl
      (fun _ => .ok true) 10000 [],
   (session_notifications_disabled_toggle envC8 sessionC8 rfl).2.2
      envC8.sessions 4 sessionC8 rfl⟩

/-- C9: for a `(entityId, kind)` pair with no cache entry, a first
dispatch attempt is not suppressed and records `lastSentAt = t1`; a
second attempt within the 60-second TTL is suppressed (so the two
attempts produce exactly one call to the dispatch port), and a second
attempt more than the TTL later is not suppressed (two calls). -/
theorem dedup_ttl (cache : Cache) (key : String) (t1 t2 : ℚ)
    (hnone : List.lookup key cache = none) :
    wasSentRecently cache t1 key = false ∧
    List.lookup key (markSent cache t1 key) = some t1 ∧
    (t2 - t1 < 60 → wasSentRecently (markSent cache t1 key) t2 key = true) ∧
    (60 < t2 - t1 → wasSentRecently (markSent cache t1 key) t2 key = false) := by
  refine ⟨?_, ?_, ?_, ?_⟩
  · simp [wasSentRecently, hnone]
  · simp [markSent, List.lookup]
  · intro h
    simp [wasSentRecently, markSent, List.lookup, h]
  · intro h
    have h2 : ¬ (t2 - t1 < 60) := by linarith
    simp [wasSentRecently, markSent, List.lookup, h2]

/-- Witness for C9: attempts at `t = 0, 30, 90` for one key. -/
theorem dedup_ttl_witness :
    wasSentRecently ([] : Cache) 0 "planning_1" = false ∧
    List.lookup "planning_1" (markSent ([] : Cache) 0 "planning_1") = some 0 ∧
    wasSentRecently (markSent ([] : Cache) 0 "planning_1") 30 "planning_1" = true ∧
    wasSentRecently (markSent ([] : Cache) 0 "planning_1") 90 "planning_1" = false :=
  ⟨(dedup_ttl ([] : Cache) "planning_1" 0 30 rfl).1,
   (dedup_ttl ([] : Cache) "planning_1" 0 30 rfl).2.1,
   (dedup_ttl ([] : Cache) "planning_1" 0 30 rfl).2.2.1 (by norm_num),
   (dedup_ttl ([] : Cache) "planning_1" 0 90 rfl).2.2.2 (by norm_num)⟩

theorem checkPlanningEntry_port_inv (port port' : Dispatch → Except DispatchError Bool)
    (env : Env) (now : ℚ) (cache : Cache) (plan : Planning) :
    (checkPlanningEntry port env now cache plan).1.map Prod.fst =
      (checkPlanningEntry port' env now cache plan).1.map Prod.fst ∧
    (checkPlanningEntry port env now cache plan).2 =
      (checkPlanningEntry port' env now cache plan).2 := by
  cases h : planningDecision env now cache plan <;> simp [checkPlanningEntry, h]

theorem checkPlanningList_port_inv (port port' : Dispatch → Except DispatchError Bool)
    (env : Env) (now : ℚ) :
    ∀ (l : List Planning) (cache : Cache),
      (checkPlanningList port env now l cache).1.map Prod.fst =
        (checkPlanningList port' env now l cache).1.map Prod.fst ∧
      (checkPlanningList port env now l cache).2 =
        (checkPlanningList port' env now l cache).2 := by
  intro l
  induction l with
  | nil => intro cache; exact ⟨rfl, rfl⟩
  | cons plan rest ih =>
    intro cache
    have he := checkPlanningEntry_port_inv port port' env now cache plan
    simp only [checkPlanningList, List.map_append]
    rw [he.1, he.2]
    exact ⟨by rw [(ih _).1], (ih _).2⟩

theorem checkSession_port_inv (port port' : Dispatch → Except DispatchError Bool)
    (env : Env) (now : ℚ) (cache : Cache) :
    (checkSessionNotifications port env now cache).1.map Prod.fst =
      (checkSessionNotifications port' env now cache).1.map Prod.fst ∧
    (checkSessionNotifications port env now cache).2 =
      (checkSessionNotifications port' env now cache).2 := by
  cases h : sessionDecision env now cache with
  | none => simp [checkSessionNotifications, h]
  | some p => cases p with
    | mk sid d => simp [checkSessionNotifications, h]

theorem check_notifications_port_inv (port port' : Dispatch → Except DispatchError Bool)
    (env : Env) (now : ℚ) (cache : Cache) :
    (check_notifications port env now cache).1.map Prod.fst =
      (check_notifications port' env now cache).1.map Prod.fst ∧
    (check_notifications port env now cache).2 =
      (check_notifications port' env now cache).2 := by
  have hp := checkPlanningList_port_inv port port' env now (planningWindow env now) cache
  simp only [check_notifications, checkPlanningNotifications, List.map_append]
  rw [hp.2]
  have hs := checkSession_port_inv port port' env now
    (checkPlanningList port' env now (planningWindow env now) cache).2
  rw [hp.1, hs.1, hs.2]
  exact ⟨rfl, rfl⟩

theorem runWorker_port_inv (port port' : Dispatch → Except DispatchError Bool) :
    ∀ (ticks : List (Env × ℚ)) (cache : Cache),
      (runWorker port ticks cache).1.length = ticks.length ∧
      (runWorker port ticks cache).1.map (List.map Prod.fst) =
        (runWorker port' ticks cache).1.map (List.map Prod.fst) ∧
      (runWorker port ticks cache).2 = (runWorker port' ticks cache).2 := by
  intro ticks
  induction ticks with
  | nil => intro cache; exact ⟨rfl, rfl, rfl⟩
  | cons tk rest ih =>
    intro cache
    cases tk with
    | mk env now =>
      have ht := check_notifications_port_inv port port' env now cache
      simp only [runWorker, List.length_cons, List.map_cons]
      rw [ht.1, ht.2]
      exact ⟨by rw [(ih _).1], by rw [(ih _).2.1], (ih _).2.2⟩

/-- C10: dispatch-port failures never abort a tick or the loop.  Whatever
the port does (`port` may fail arbitrarily, `port'` stands for any other
behaviour, e.g. always succeeding): the loop produces one outcome per
tick; which notifications are attempted — across every entity of every
tick — and the dedup-cache evolution are identical to an unfailing run,
so every remaining entity is still evaluated; and a port error is
absorbed by `sendNotification` (it returns `false`, nothing propagates). -/
theorem tick_failure_containment (port port' : Dispatch → Except DispatchError Bool)
    (ticks : List (Env × ℚ)) (cache : Cache) :
    (runWorker port ticks cache).1.length = ticks.length ∧
    (runWorker port ticks cache).1.map (List.map Prod.fst) =
      (runWorker port' ticks cache).1.map (List.map Prod.fst) ∧
    (runWorker port ticks cache).2 = (runWorker port' ticks cache).2 ∧
    (∀ d, port d = .error .failed → sendNotification port d = false) := by
  refine ⟨(runWorker_port_inv port port' ticks cache).1,
    (runWorker_port_inv port port' ticks cache).2.1,
    (runWorker_port_inv port port' ticks cache).2.2, ?_⟩
  intro d h
  simp [sendNotification, h]

/-- Empty store fixture for the C10 witness. -/
def envC10 : Env :=
  { sessions := [], plannings := [], projects := [], settings := [] }

/-- Witness for C10: a run with an always-failing port still executes its
tick, and the failure is absorbed at the send layer. -/
theorem tick_failure_containment_witness :
    (runWorker (fun _ => .error .failed) [(envC10, 0)] ([] : Cache)).1.length = 1 ∧
    sendNotification (fun _ => .error .failed)
      { title := "t", message := "m", urgency := "normal" } = false :=
  ⟨(tick_failure_containment (fun _ => .error .failed) (fun _ => .ok true)
      [(envC10, 0)] []).1,
   (tick_failure_containment (fun _ => .error .failed) (fun _ => .ok true)
      [(envC10, 0)] []).2.2.2
      { title := "t", message := "m", urgency := "normal" } rfl⟩

end UbuntuPlanner
